import Mathlib

set_option maxHeartbeats 1000000
set_option maxRecDepth 8000
set_option linter.unusedVariables false

/-! Verification development for the to-do application in src/app.py.
The Python functions are shallowly embedded as Lean definitions: the
sqlite store becomes an explicit AppState value, the wall clock becomes
explicit parameters (now : String for timestamp strings, today : Int
counting calendar days), and every fallible parse returns an Option.
The embedding follows the authenticated sqlite code path of app.py,
which is the path the examined claims cite.  Text handling (lowercase,
strip, substring search) is embedded over ASCII character lists so that
every definition is executable by the kernel. -/

namespace TodoApp

/-- Calendar dates are modelled as integers (day numbers), so that
today - 1 is yesterday.  A stored date column (TEXT in sqlite) is
either NULL, a well formed ISO date, or malformed text; this mirrors
the try/except around datetime.fromisoformat in update_task. -/
inductive DateText where
  | noneV
  | iso (d : Int)
  | badV
deriving DecidableEq

/-- Row of the users table as created by init_db in app.py. -/
structure User where
  id : Int
  email : String
  name : String
  password_hash : Option String
  provider : String
  points : Int
  streak : Int
  last_complete_date : DateText
  created_at : String
deriving DecidableEq

/-- Row of the tasks table as created by init_db in app.py. -/
structure Task where
  id : String
  user_id : Int
  title : String
  desc : String
  due : Option String
  priority : Option String
  category : Option String
  done : Bool
  created_at : String
  completed_at : Option String
deriving DecidableEq

/-- The durable sqlite state: the users table and the tasks table. -/
structure AppState where
  users : List User
  tasks : List Task
deriving DecidableEq

/-- Parsing of the stored last_complete_date column, mirroring the
try datetime.fromisoformat(last) except block of update_task: NULL and
malformed text both give no date. -/
def parseDate : DateText → Option Int
  | DateText.noneV => Option.none
  | DateText.iso d => some d
  | DateText.badV => Option.none

/-- Python truthiness on an integer, as used by the expression
(streak or 0) in update_task: 0 is falsy. -/
def pyOr0 (n : Int) : Int := if n = 0 then 0 else n

/-- The priority bonus dictionary lookup in update_task:
{"High":5,"Medium":2,"Low":0}.get(prio, 0).  Any other value,
including a NULL priority, falls back to the default 0. -/
def priorityBonus (prio : Option String) : Int :=
  if prio = some "High" then 5
  else if prio = some "Medium" then 2
  else if prio = some "Low" then 0
  else 0

/-- The gamification block of update_task (lines 222-248 of app.py),
applied to one user row: add 10 points plus the priority bonus, update
the streak by comparing the parsed last_complete_date with yesterday
and today, and stamp last_complete_date with today. -/
def gamifyUser (prio : Option String) (today : Int) (u : User) : User :=
  { u with
    points := u.points + 10 + priorityBonus prio,
    streak := if parseDate u.last_complete_date = some (today - 1) then pyOr0 u.streak + 1
              else if parseDate u.last_complete_date = some today then u.streak
              else 1,
    last_complete_date := DateText.iso today }

/-- The keyword-argument dictionary accepted by update_task.  A field
that is Option.none is absent from the dictionary; the due field can
itself be set to NULL, hence its doubled Option. -/
structure TaskPatch where
  title : Option String := Option.none
  desc : Option String := Option.none
  due : Option (Option String) := Option.none
  priority : Option String := Option.none
  category : Option String := Option.none
  done : Option Bool := Option.none
deriving DecidableEq

/-- The patch update(done=True) sent by the task list checkbox. -/
def donePatch : TaskPatch := { done := some true }

/-- The patch update(done=False) sent when the checkbox is cleared. -/
def undonePatch : TaskPatch := { done := some false }

/-- A patch that edits only the title, as an example of the edit path
that does not touch the done flag. -/
def titlePatch : TaskPatch := { title := some "edited" }

/-- Application of the non-done fields of a patch to a task row,
mirroring the dynamically built SET clause of update_task. -/
def applyPatchBase (p : TaskPatch) (t : Task) : Task :=
  { t with
    title := match p.title with | some v => v | Option.none => t.title,
    desc := match p.desc with | some v => v | Option.none => t.desc,
    due := match p.due with | some v => v | Option.none => t.due,
    priority := match p.priority with | some v => some v | Option.none => t.priority,
    category := match p.category with | some v => some v | Option.none => t.category }

/-- Full patch application: update_task coerces done to 0/1 and, when
done becomes 1, also writes completed_at = now into the same row.  When
done becomes 0 the stored completed_at is left untouched. -/
def applyPatch (p : TaskPatch) (now : String) (t : Task) : Task :=
  match p.done with
  | Option.none => applyPatchBase p t
  | some true => { applyPatchBase p t with done := true, completed_at := some now }
  | some false => { applyPatchBase p t with done := false }

/-- One row of the UPDATE tasks ... WHERE id = ? AND user_id = ?
statement: only a row matching both keys is rewritten. -/
def updTask (uid : Int) (tid : String) (p : TaskPatch) (now : String) (t : Task) : Task :=
  if (t.id == tid && t.user_id == uid) = true then applyPatch p now t else t

/-- The SELECT priority FROM tasks WHERE id = ? AND user_id = ? read in
the gamification block; when no row matches, update_task falls back to
the literal "Medium". -/
def prioOf (s : AppState) (tid : String) (uid : Int) : Option String :=
  match s.tasks.find? (fun x => x.id == tid && x.user_id == uid) with
  | some x => x.priority
  | Option.none => some "Medium"

/-- One row of the UPDATE users ... WHERE id = ? statement in the
gamification block. -/
def updUser (prio : Option String) (today : Int) (uid : Int) (v : User) : User :=
  if (v.id == uid) = true then gamifyUser prio today v else v

/-- The two kinds of UPDATE statements issued by update_task. -/
inductive DBWrite where
  | taskPatchW (uid : Int) (tid : String) (p : TaskPatch) (now : String)
  | gamifyW (uid : Int) (tid : String)
deriving DecidableEq

/-- Effect of a single UPDATE statement on the store.  The gamify
write reads the priority from the current store, matching the order of
statements in update_task (the task row is rewritten first). -/
def applyWrite (today : Int) (s : AppState) : DBWrite → AppState
  | DBWrite.taskPatchW uid tid p now =>
      { s with tasks := s.tasks.map (updTask uid tid p now) }
  | DBWrite.gamifyW uid tid =>
      { s with users := s.users.map (updUser (prioOf s tid uid) today uid) }

/-- The commit structure of update_task: app.py calls conn.commit()
once right after the UPDATE tasks statement (line 220) and, when the
patch sets done to true, a second time after the UPDATE users statement
of the gamification block (line 248).  Each inner list is the set of
writes inside one committed transaction. -/
def update_task_commits (uid : Int) (tid : String) (p : TaskPatch) (now : String) :
    List (List DBWrite) :=
  if (p.done == some true) = true then
    [[DBWrite.taskPatchW uid tid p now], [DBWrite.gamifyW uid tid]]
  else
    [[DBWrite.taskPatchW uid tid p now]]

/-- Applying one committed transaction to the store. -/
def applyCommit (today : Int) (s : AppState) (batch : List DBWrite) : AppState :=
  batch.foldl (applyWrite today) s

/-- The sqlite path of update_task in app.py (lines 208-250), for the
session user uid: rewrite the matching task row, then, exactly when the
patch sets done to true, run the gamification block, in two separate
commits. -/
def update_task (uid : Int) (tid : String) (p : TaskPatch) (now : String) (today : Int)
    (s : AppState) : AppState :=
  (update_task_commits uid tid p now).foldl (applyCommit today) s

/-- The sqlite path of delete_task in app.py (lines 262-270):
DELETE FROM tasks WHERE id = ? AND user_id = ?. -/
def delete_task (uid : Int) (tid : String) (s : AppState) : AppState :=
  { s with tasks := s.tasks.filter (fun t => !(t.id == tid && t.user_id == uid)) }

/-- ASCII lowercase of one character, embedding str.lower for the
ASCII texts the application handles. -/
def asciiLower (c : Char) : Char :=
  if 'A' ≤ c ∧ c ≤ 'Z' then Char.ofNat (c.toNat + 32) else c

/-- Lowercasing a string, embedding str.lower. -/
def lowerStr (s : String) : String := String.mk (s.toList.map asciiLower)

/-- Whitespace test used by str.strip. -/
def isSpaceChar (c : Char) : Bool := c == ' ' || c == '\t' || c == '\n' || c == '\r'

/-- Embedding of str.strip: drop whitespace from both ends. -/
def stripStr (s : String) : String :=
  String.mk (((s.toList.dropWhile isSpaceChar).reverse.dropWhile isSpaceChar).reverse)

/-- Email normalization used by get_user_by_email and create_user:
email.lower().strip(). -/
def normalize_email (e : String) : String := stripStr (lowerStr e)

/-- The SELECT * FROM users WHERE email = ? lookup of
get_user_by_email, with the parameter normalized as in the source. -/
def get_user_by_email (users : List User) (email : String) : Option User :=
  users.find? (fun u => u.email == normalize_email email)

/-- The three failure messages of login_local, modelled as error kinds:
the no-account message, the registered-via-Google message and the
incorrect-password message, in the order the source checks them. -/
inductive LoginError where
  | notFound
  | providerMismatch
  | invalidCredentials
deriving DecidableEq

/-- The login_local function of app.py (lines 127-135).  The bcrypt
verification is abstracted as the verify parameter, applied to the
candidate password and the stored hash column.  The source returns the
pair (user, error) where exactly one side is set. -/
def login_local (verify : String → Option String → Bool) (users : List User)
    (email password : String) : Option User × Option LoginError :=
  match get_user_by_email users email with
  | Option.none => (Option.none, some LoginError.notFound)
  | some user =>
    if user.provider ≠ "local" then (Option.none, some LoginError.providerMismatch)
    else if verify password user.password_hash = false then
      (Option.none, some LoginError.invalidCredentials)
    else (some user, Option.none)

/-- The session identity dictionary built by render_auth (line 401 of
app.py) after a successful login: exactly id, email, name, provider. -/
structure SessionIdentity where
  id : Int
  email : String
  name : String
  provider : String
deriving DecidableEq

/-- Construction of the session identity from a user row, embedding
line 401 of app.py. -/
def sessionOfUser (u : User) : SessionIdentity :=
  { id := u.id, email := u.email, name := u.name, provider := u.provider }

/-- The possible shapes of the due argument of suggest_priority_by_due:
a falsy value (None or the empty string), a date, a datetime (its date
component is kept), an ISO string that parses to a date, a string that
fails to parse, or a value of any other type. -/
inductive DueInput where
  | noneV
  | dateV (d : Int)
  | datetimeV (d : Int)
  | isoStrV (d : Int)
  | badStrV
  | otherV
deriving DecidableEq

/-- The date extracted from a due value by the isinstance ladder of
suggest_priority_by_due; parse failures and alien types give no date. -/
def dueDateOf : DueInput → Option Int
  | DueInput.noneV => Option.none
  | DueInput.dateV d => some d
  | DueInput.datetimeV d => some d
  | DueInput.isoStrV d => some d
  | DueInput.badStrV => Option.none
  | DueInput.otherV => Option.none

/-- The suggest_priority_by_due function of app.py (lines 277-297):
falsy due gives Low; an unparseable or alien due gives Low; otherwise
delta = due - today decides: delta <= 0 gives High, delta <= 3 gives
Medium, else Low. -/
def suggest_priority_by_due (due : DueInput) (today : Int) : String :=
  match due with
  | DueInput.noneV => "Low"
  | _ =>
    match dueDateOf due with
    | Option.none => "Low"
    | some d =>
      if d - today ≤ 0 then "High"
      else if d - today ≤ 3 then "Medium"
      else "Low"

/-- Coercion of an optional calendar date into a due input, used to
state claims that quantify over a nullable due date. -/
def dueOfOpt : Option Int → DueInput
  | Option.none => DueInput.noneV
  | some d => DueInput.dateV d

/-- Test that the pattern is a prefix of the character list. -/
def subAt : List Char → List Char → Bool
  | [], _ => true
  | _ :: _, [] => false
  | p :: ps, c :: cs => p == c && subAt ps cs

/-- Substring test over character lists, embedding the Python
expression pattern in text. -/
def hasSub (pat : List Char) : List Char → Bool
  | [] => subAt pat []
  | c :: cs => subAt pat (c :: cs) || hasSub pat cs

/-- Substring test over strings. -/
def strHas (s pat : String) : Bool := hasSub pat.toList s.toList

/-- Removal of every occurrence of a pattern, embedding
txt.replace(pattern, "").  The fuel argument bounds the recursion by
the length of the text. -/
def removeAllPat (pat : List Char) : Nat → List Char → List Char
  | 0, cs => cs
  | _ + 1, [] => []
  | fuel + 1, c :: cs =>
    if subAt pat (c :: cs) = true then removeAllPat pat fuel ((c :: cs).drop pat.length)
    else c :: removeAllPat pat fuel cs

/-- String form of removeAllPat. -/
def replaceAllStr (s pat : String) : String :=
  String.mk (removeAllPat pat.toList s.toList.length s.toList)

/-- Numeric value of a digit run, embedding int(match.group(1)). -/
def natOfDigits (ds : List Char) : Nat :=
  ds.foldl (fun n c => n * 10 + (c.toNat - '0'.toNat)) 0

/-- Case-insensitive match of the pattern "in (digits) day" with an
optional trailing s, at the head of the character list; on success
returns the numeric value of the digit group and the matched length.
This embeds the regular-expression pattern used twice by
parse_voice_text_for_task. -/
def matchInDaysAt (cs : List Char) : Option (Nat × Nat) :=
  match cs with
  | a :: b :: c :: rest =>
    if (asciiLower a == 'i' && asciiLower b == 'n' && c == ' ') = true then
      match rest.takeWhile Char.isDigit with
      | [] => Option.none
      | ds =>
        match rest.drop ds.length with
        | d :: e :: f :: g :: rest2 =>
          if (d == ' ' && asciiLower e == 'd' && asciiLower f == 'a' && asciiLower g == 'y') = true then
            some (natOfDigits ds,
              3 + ds.length + 4 +
                (match rest2 with
                 | h :: _ => if asciiLower h == 's' then 1 else 0
                 | [] => 0))
          else Option.none
        | _ => Option.none
    else Option.none
  | _ => Option.none

/-- Leftmost search for the in-N-days pattern, embedding re.search on
the lowercased text; returns the digit group of the first match. -/
def searchInDays : List Char → Option Nat
  | [] => Option.none
  | c :: cs =>
    match matchInDaysAt (c :: cs) with
    | some (v, _) => some v
    | Option.none => searchInDays cs

/-- Removal of every non-overlapping occurrence of the in-N-days
pattern, embedding re.sub with the ignore-case flag on the original
text; fuel bounds the recursion by the text length. -/
def subAllInDaysAux : Nat → List Char → List Char
  | 0, cs => cs
  | _ + 1, [] => []
  | fuel + 1, c :: cs =>
    match matchInDaysAt (c :: cs) with
    | some (_, len) => subAllInDaysAux fuel ((c :: cs).drop len)
    | Option.none => c :: subAllInDaysAux fuel cs

/-- String form of subAllInDaysAux. -/
def subAllInDays (s : String) : String :=
  String.mk (subAllInDaysAux s.toList.length s.toList)

/-- The priority keyword ladder at the top of
parse_voice_text_for_task, applied to the stripped lowercased text:
high priority or urgent gives High; otherwise low priority or the
substring low gives Low; otherwise no hint. -/
def voicePriority (l : String) : Option String :=
  if (strHas l "high priority" || strHas l "urgent") = true then some "High"
  else if (strHas l "low priority" || strHas l "low") = true then some "Low"
  else Option.none

/-- Title derived on the tomorrow branch: txt.replace("tomorrow", "")
stripped, falling back to the full text when empty. -/
def voiceTomorrowTitle (txt : String) : String :=
  if stripStr (replaceAllStr txt "tomorrow") == "" then txt
  else stripStr (replaceAllStr txt "tomorrow")

/-- Title derived on the in-N-days branch: the matched phrase removed
case-insensitively and the result stripped, falling back to the full
text when empty. -/
def voiceInDaysTitle (txt : String) : String :=
  if stripStr (subAllInDays txt) == "" then txt else stripStr (subAllInDays txt)

/-- The parse_voice_text_for_task function of app.py (lines 312-332):
strip the text, compute the keyword priority hint, then look for the
word tomorrow (due = today + 1) and otherwise for the in-N-days pattern
(due = today + N); the triple returned is (title, due, priority). -/
def parse_voice_text_for_task (text : String) (today : Int) :
    String × Option Int × Option String :=
  if strHas (lowerStr (stripStr text)) "tomorrow" = true then
    (voiceTomorrowTitle (stripStr text), some (today + 1),
      voicePriority (lowerStr (stripStr text)))
  else
    match searchInDays (lowerStr (stripStr text)).toList with
    | some n =>
      (voiceInDaysTitle (stripStr text), some (today + Int.ofNat n),
        voicePriority (lowerStr (stripStr text)))
    | Option.none =>
      (stripStr text, Option.none, voicePriority (lowerStr (stripStr text)))

/-- Splitting a string into whitespace-separated words, used to state
the standalone-word reading of the voice priority claim. -/
def wordsAux : List Char → List Char → List String
  | [], acc => [String.mk acc.reverse]
  | c :: cs, acc =>
    if isSpaceChar c = true then String.mk acc.reverse :: wordsAux cs []
    else wordsAux cs (c :: acc)

/-- Word list of a string. -/
def splitSpace (s : String) : List String := wordsAux s.toList []

/-- The Low condition exactly as the specification words it (a second,
spec-side definition for comparison with the code): the High keywords
are absent and the text contains the phrase low priority or the
standalone word low, reading standalone word as whitespace-delimited
token. -/
def specVoiceLowCondition (text : String) : Bool :=
  !(strHas (lowerStr (stripStr text)) "high priority"
      || strHas (lowerStr (stripStr text)) "urgent")
    && (strHas (lowerStr (stripStr text)) "low priority"
      || (splitSpace (lowerStr (stripStr text))).contains "low")

/-- Category of a task row with the NULL default, embedding
df["category"].fillna("Other") in compute_analytics. -/
def catOf (t : Task) : String := t.category.getD "Other"

/-- Adding one observation of a category into an association list of
counts; the first matching key is incremented, a new key is appended
with count 1. -/
def bump : List (String × Nat) → String → List (String × Nat)
  | [], c => [(c, 1)]
  | (k, n) :: rest, c =>
    if k = c then (k, n + 1) :: rest else (k, n) :: bump rest c

/-- The value_counts aggregation over a list of category strings. -/
def value_counts (l : List String) : List (String × Nat) := l.foldl bump []

/-- Count stored for a key in an association list of counts; an absent
key counts zero. -/
def getCount : List (String × Nat) → String → Nat
  | [], _ => 0
  | (k, n) :: rest, c => if k = c then n else getCount rest c

/-- The category histogram of compute_analytics (lines 355-374 of
app.py): an empty task list short-circuits to the empty dictionary,
otherwise every task is grouped by its category with NULL defaulted to
Other and the value is the count per category. -/
def categoriesOf (tasks : List Task) : List (String × Nat) :=
  if tasks.isEmpty = true then [] else value_counts (tasks.map catOf)

/-- Points of the user with the given id, 0 when absent. -/
def userPoints (s : AppState) (uid : Int) : Int :=
  match s.users.find? (fun v => v.id == uid) with
  | some u => u.points
  | Option.none => 0

/-- Streak of the user with the given id, 0 when absent. -/
def userStreak (s : AppState) (uid : Int) : Int :=
  match s.users.find? (fun v => v.id == uid) with
  | some u => u.streak
  | Option.none => 0

/-- Stored last_complete_date of the user with the given id. -/
def userLast (s : AppState) (uid : Int) : DateText :=
  match s.users.find? (fun v => v.id == uid) with
  | some u => u.last_complete_date
  | Option.none => DateText.noneV

/-- Done flag of the task with the given id, false when absent. -/
def taskDoneB (s : AppState) (tid : String) : Bool :=
  match s.tasks.find? (fun t => t.id == tid) with
  | some t => t.done
  | Option.none => false

/-- Completion timestamp of the task with the given id. -/
def taskCompletedAt (s : AppState) (tid : String) : Option String :=
  match s.tasks.find? (fun t => t.id == tid) with
  | some t => t.completed_at
  | Option.none => Option.none

/-- A fresh local user with no points yet. -/
def c1U : User :=
  { id := 1, email := "a@x.com", name := "A", password_hash := some "h1",
    provider := "local", points := 0, streak := 0,
    last_complete_date := DateText.noneV, created_at := "c0" }

/-- A pending high-priority task owned by user 1. -/
def c1T : Task :=
  { id := "t1", user_id := 1, title := "Pay rent", desc := "", due := some "D",
    priority := some "High", category := some "Work", done := false,
    created_at := "c1", completed_at := Option.none }

/-- Store for the repeated-completion scenario. -/
def c1S0 : AppState := { users := [c1U], tasks := [c1T] }

/-- Store after the first update(done=True) at timestamp N1 on day 100. -/
def c1S1 : AppState := update_task 1 "t1" donePatch "N1" 100 c1S0

/-- Store after re-sending update(done=True) at timestamp N2 on the
same day. -/
def c1S2 : AppState := update_task 1 "t1" donePatch "N2" 100 c1S1

/-- A user with accumulated points, a running streak, and a last
completion on day 40. -/
def c2U : User :=
  { id := 1, email := "a@x.com", name := "A", password_hash := some "h1",
    provider := "local", points := 7, streak := 3,
    last_complete_date := DateText.iso 40, created_at := "c0" }

/-- A task owned by a different user (user 2). -/
def c2T : Task :=
  { id := "t9", user_id := 2, title := "Foreign", desc := "", due := Option.none,
    priority := some "High", category := some "Work", done := false,
    created_at := "c1", completed_at := Option.none }

/-- Store for the foreign-task scenario: user 1 owns no task. -/
def c2S0 : AppState := { users := [c2U], tasks := [c2T] }

/-- A task of user 1 that is already completed with timestamp T1. -/
def c3T : Task :=
  { id := "t1", user_id := 1, title := "Done already", desc := "", due := Option.none,
    priority := some "Low", category := some "Work", done := true,
    created_at := "c1", completed_at := some "T1" }

/-- Store for the un-complete scenario. -/
def c3S0 : AppState := { users := [c1U], tasks := [c3T] }

/-- Store after the checkbox sends update(done=False). -/
def c3S1 : AppState := update_task 1 "t1" undonePatch "N2" 100 c3S0

/-- A pending task of user 1 used to witness the patch semantics. -/
def w3T : Task :=
  { id := "t2", user_id := 1, title := "Witness", desc := "", due := Option.none,
    priority := some "Medium", category := some "Other", done := false,
    created_at := "c1", completed_at := Option.none }

/-- Store holding only that task. -/
def w3S : AppState := { users := [], tasks := [w3T] }

/-- A fresh user used to witness the gamification effect. -/
def w4U : User :=
  { id := 1, email := "a@x.com", name := "A", password_hash := some "h1",
    provider := "local", points := 0, streak := 0,
    last_complete_date := DateText.noneV, created_at := "c0" }

/-- A pending medium-priority task of that user. -/
def w4T : Task :=
  { id := "t1", user_id := 1, title := "Pay rent", desc := "", due := Option.none,
    priority := some "Medium", category := some "Work", done := false,
    created_at := "c1", completed_at := Option.none }

/-- Store for the gamification witness. -/
def w4S : AppState := { users := [w4U], tasks := [w4T] }

/-- A user with 5 points used in the commit-atomicity scenario. -/
def c6U : User :=
  { id := 1, email := "a@x.com", name := "A", password_hash := some "h1",
    provider := "local", points := 5, streak := 0,
    last_complete_date := DateText.noneV, created_at := "c0" }

/-- A pending low-priority task of that user. -/
def c6T : Task :=
  { id := "t1", user_id := 1, title := "Atomic", desc := "", due := Option.none,
    priority := some "Low", category := some "Work", done := false,
    created_at := "c1", completed_at := Option.none }

/-- Store for the commit-atomicity scenario. -/
def c6S0 : AppState := { users := [c6U], tasks := [c6T] }

/-- The committed transactions issued by update(done=True) on t1. -/
def c6Commits : List (List DBWrite) := update_task_commits 1 "t1" donePatch "N1"

/-- The store visible if execution stops after the first commit. -/
def c6Half : AppState := (c6Commits.take 1).foldl (applyCommit 100) c6S0

/-- A stored local user with credentials and gamification counters. -/
def c7U : User :=
  { id := 1, email := "a@x.com", name := "A", password_hash := some "h1",
    provider := "local", points := 42, streak := 3,
    last_complete_date := DateText.noneV, created_at := "c0" }

/-- Users table for the login scenario. -/
def c7Users : List User := [c7U]

/-- A concrete stand-in for bcrypt.verify: accepts exactly the stored
hash value h1. -/
def cVerify : String → Option String → Bool := fun _ h => h == some "h1"

/-- A task with a NULL category, from the histogram scenario of the
specification. -/
def demoNullCat : Task :=
  { id := "a1", user_id := 1, title := "x", desc := "", due := Option.none,
    priority := some "Low", category := Option.none, done := false,
    created_at := "c1", completed_at := Option.none }

/-- A task in category Work, from the same scenario. -/
def demoWorkCat : Task :=
  { id := "a2", user_id := 1, title := "y", desc := "", due := Option.none,
    priority := some "Low", category := some "Work", done := true,
    created_at := "c1", completed_at := some "c2" }

/-- Patch application never changes the primary key of a task row. -/
lemma applyPatch_id (p : TaskPatch) (now : String) (t : Task) :
    (applyPatch p now t).id = t.id := by
  cases hp : p.done with
  | none => simp [applyPatch, hp, applyPatchBase]
  | some b => cases b <;> simp [applyPatch, hp, applyPatchBase]

/-- Patch application never changes the owner of a task row. -/
lemma applyPatch_user_id (p : TaskPatch) (now : String) (t : Task) :
    (applyPatch p now t).user_id = t.user_id := by
  cases hp : p.done with
  | none => simp [applyPatch, hp, applyPatchBase]
  | some b => cases b <;> simp [applyPatch, hp, applyPatchBase]

/-- A patch with no priority field leaves the stored priority alone. -/
lemma applyPatch_priority (p : TaskPatch) (now : String) (t : Task)
    (hp : p.priority = Option.none) :
    (applyPatch p now t).priority = t.priority := by
  cases hd : p.done with
  | none => simp [applyPatch, hd, applyPatchBase, hp]
  | some b => cases b <;> simp [applyPatch, hd, applyPatchBase, hp]

/-- The gamification update never changes the user id. -/
lemma gamifyUser_id (prio : Option String) (today : Int) (v : User) :
    (gamifyUser prio today v).id = v.id := rfl

/-- Lookup after the conditional task rewrite: the row found under the
id and owner keys is exactly the patched version of the row found
before the rewrite. -/
lemma find_updTask (uid : Int) (tid : String) (p : TaskPatch) (now : String)
    (l : List Task) :
    (l.map (updTask uid tid p now)).find? (fun x => x.id == tid && x.user_id == uid)
      = (l.find? (fun x => x.id == tid && x.user_id == uid)).map (applyPatch p now) := by
  induction l with
  | nil => rfl
  | cons a l ih =>
    cases h : (a.id == tid && a.user_id == uid) with
    | false =>
      have ha : updTask uid tid p now a = a := by simp [updTask, h]
      rw [List.map_cons, ha, List.find?_cons_of_neg _ (by simp [h]),
        List.find?_cons_of_neg _ (by simp [h]), ih]
    | true =>
      have ha : updTask uid tid p now a = applyPatch p now a := by simp [updTask, h]
      have hq : ((applyPatch p now a).id == tid && (applyPatch p now a).user_id == uid) = true := by
        rw [applyPatch_id, applyPatch_user_id]; exact h
      rw [List.map_cons, ha, List.find?_cons_of_pos _ (by simp [hq]),
        List.find?_cons_of_pos _ (by simp [h])]
      rfl

/-- Lookup after the conditional user rewrite: the row found under the
id key is exactly the gamified version of the row found before. -/
lemma find_updUser (prio : Option String) (today : Int) (uid : Int) (l : List User) :
    (l.map (updUser prio today uid)).find? (fun v => v.id == uid)
      = (l.find? (fun v => v.id == uid)).map (gamifyUser prio today) := by
  induction l with
  | nil => rfl
  | cons a l ih =>
    cases h : (a.id == uid) with
    | false =>
      have ha : updUser prio today uid a = a := by simp [updUser, h]
      rw [List.map_cons, ha, List.find?_cons_of_neg _ (by simp [h]),
        List.find?_cons_of_neg _ (by simp [h]), ih]
    | true =>
      have ha : updUser prio today uid a = gamifyUser prio today a := by simp [updUser, h]
      have hq : ((gamifyUser prio today a).id == uid) = true := by
        rw [gamifyUser_id]; exact h
      rw [List.map_cons, ha, List.find?_cons_of_pos _ (by simp [hq]),
        List.find?_cons_of_pos _ (by simp [h])]
      rfl

/-- The tasks table after update_task is the conditional rewrite of
every row; the optional gamification commit does not touch tasks. -/
lemma update_task_tasks (uid : Int) (tid : String) (p : TaskPatch) (now : String)
    (today : Int) (s : AppState) :
    (update_task uid tid p now today s).tasks = s.tasks.map (updTask uid tid p now) := by
  unfold update_task update_task_commits applyCommit
  cases h : (p.done == some true) with
  | false => simp [h, applyWrite]
  | true => simp [h, applyWrite]

/-- The users table after update_task with a patch that does not set
done to true is unchanged. -/
lemma update_task_users_of_not_done (uid : Int) (tid : String) (p : TaskPatch)
    (now : String) (today : Int) (s : AppState) (h : (p.done == some true) = false) :
    (update_task uid tid p now today s).users = s.users := by
  unfold update_task update_task_commits applyCommit
  simp [h, applyWrite]

/-- On integers, the source expression (streak or 0) + 1 is just
streak + 1, including at streak = 0. -/
lemma pyOr0_succ (n : Int) : pyOr0 n + 1 = n + 1 := by
  unfold pyOr0
  split_ifs with h
  · omega
  · rfl

/-- Incrementing one observation changes exactly the count of that
key. -/
lemma getCount_bump (m : List (String × Nat)) (c' c : String) :
    getCount (bump m c') c = getCount m c + (if c' = c then 1 else 0) := by
  induction m with
  | nil =>
    by_cases h : c' = c <;> simp [bump, getCount, h]
  | cons kn rest ih =>
    obtain ⟨k, n⟩ := kn
    by_cases h1 : k = c'
    · subst h1
      by_cases h2 : k = c <;> simp [bump, getCount, h2]
    · by_cases h2 : k = c
      · have hne : ¬ c' = c := fun hc => h1 (h2.trans hc.symm)
        have h1x : ¬ c = c' := fun hc => h1 (h2.trans hc)
        simp [bump, getCount, h1, h2, hne, h1x]
      · simp [bump, getCount, h1, h2, ih]

/-- The fold that builds value_counts adds the observed multiplicity
of every key on top of the accumulator. -/
lemma getCount_foldl (l : List String) :
    ∀ (m : List (String × Nat)) (c : String),
      getCount (l.foldl bump m) c = getCount m c + l.count c := by
  induction l with
  | nil => intro m c; simp [List.count_nil]
  | cons a l ih =>
    intro m c
    rw [List.foldl_cons, ih, getCount_bump, List.count_cons]
    by_cases h : a = c
    · simp [h]
      omega
    · simp [h]

/-- The priority component returned by the voice parser is the keyword
ladder applied to the stripped lowercased text, on every branch of the
due-date detection. -/
lemma parse_voice_priority (text : String) (today : Int) :
    (parse_voice_text_for_task text today).2.2 = voicePriority (lowerStr (stripStr text)) := by
  unfold parse_voice_text_for_task
  split
  · rfl
  · split <;> rfl

/-- C1: the claim says a second update(done=True) on an already done
task changes points, streak and completion timestamp only once in
total.  Evaluating the embedded update_task at the failing input shows
otherwise: the first call brings user 1 from 0 to 15 points and stamps
timestamp N1; the second call runs the gamification block again,
reaching 30 points, and overwrites the completion timestamp with N2.
The source guards the block only by the patch content, never by the
previous done value. -/
theorem update_done_twice_retriggers :
    userPoints c1S1 1 = 15 ∧ taskCompletedAt c1S1 "t1" = some "N1"
      ∧ userStreak c1S1 1 = 1
      ∧ userPoints c1S2 1 = 30 ∧ taskCompletedAt c1S2 "t1" = some "N2"
      ∧ userStreak c1S2 1 = 1 := by decide

/-- C2: the claim says update and delete on a task id not owned by the
session user are complete no-ops, including for the points, streak and
last completion date of the session user.  Evaluating update_task at a
task id owned by user 2 shows the task table is untouched and delete
and field-only updates really are no-ops, but update(done=True) still
runs the gamification block for user 1: points move from 7 to 19 (the
missing row defaults to a Medium bonus), the streak resets to 1 and
the last completion date is stamped with today. -/
theorem foreign_update_changes_user_state :
    (update_task 1 "t9" donePatch "N1" 50 c2S0).tasks = c2S0.tasks
      ∧ userPoints (update_task 1 "t9" donePatch "N1" 50 c2S0) 1 = 19
      ∧ userStreak (update_task 1 "t9" donePatch "N1" 50 c2S0) 1 = 1
      ∧ userLast (update_task 1 "t9" donePatch "N1" 50 c2S0) 1 = DateText.iso 50
      ∧ update_task 1 "t9" titlePatch "N1" 50 c2S0 = c2S0
      ∧ delete_task 1 "t9" c2S0 = c2S0 := by decide

/-- C3, counterexample: the claim says the completion timestamp is
non-null exactly when the done flag is true.  Sending update(done=False)
to a completed task clears the flag but leaves the old timestamp T1 in
the row, so the equivalence fails on the embedded code. -/
theorem completed_at_survives_undone :
    taskDoneB c3S1 "t1" = false ∧ taskCompletedAt c3S1 "t1" = some "T1" := by decide

/-- C3, amended: every update with done=true writes the current
timestamp into completed_at (also when the task was already done);
an update with done=false clears the flag but keeps the stored
timestamp; an update without a done field changes neither the flag nor
the timestamp.  This is exactly what the embedded update_task does to
the matching row, while rows that do not match id and owner are
untouched. -/
theorem update_completed_at_semantics (uid : Int) (today : Int) (tid now : String)
    (p : TaskPatch) (s : AppState) (t : Task) (ht : t ∈ s.tasks) :
    ∃ t', t' ∈ (update_task uid tid p now today s).tasks ∧
      ((t.id == tid && t.user_id == uid) = false → t' = t) ∧
      ((t.id == tid && t.user_id == uid) = true →
        (p.done = some true → t'.done = true ∧ t'.completed_at = some now) ∧
        (p.done = some false → t'.done = false ∧ t'.completed_at = t.completed_at) ∧
        (p.done = Option.none → t'.done = t.done ∧ t'.completed_at = t.completed_at)) := by
  refine ⟨updTask uid tid p now t, ?_, ?_, ?_⟩
  · rw [update_task_tasks]
    exact List.mem_map_of_mem _ ht
  · intro h
    simp [updTask, h]
  · intro h
    refine ⟨?_, ?_, ?_⟩
    · intro hd
      simp [updTask, h, applyPatch, hd]
    · intro hd
      simp [updTask, h, applyPatch, hd, applyPatchBase]
    · intro hd
      simp [updTask, h, applyPatch, hd, applyPatchBase]

/-- C3, witness for the amended statement at a concrete store. -/
theorem update_completed_at_semantics_witness :
    w3T ∈ w3S.tasks ∧
    (∃ t', t' ∈ (update_task 1 "t2" donePatch "N9" 7 w3S).tasks ∧
      ((w3T.id == "t2" && w3T.user_id == 1) = false → t' = w3T) ∧
      ((w3T.id == "t2" && w3T.user_id == 1) = true →
        (donePatch.done = some true → t'.done = true ∧ t'.completed_at = some "N9") ∧
        (donePatch.done = some false → t'.done = false ∧ t'.completed_at = w3T.completed_at) ∧
        (donePatch.done = Option.none → t'.done = w3T.done ∧ t'.completed_at = w3T.completed_at))) :=
  ⟨by decide, update_completed_at_semantics 1 7 "t2" "N9" donePatch w3S w3T (by decide)⟩

/-- C4: on a genuine pending-to-done transition of an owned task, the
user row found after update_task carries exactly points + 10 + bonus,
the streak continued on a yesterday match, kept on a today match and
reset to 1 otherwise, and the last completion date set to today; the
bonus values are High 5, Medium 2, Low 0. -/
theorem completion_gamify_effect
    (s : AppState) (uid : Int) (tid now : String) (today : Int) (u : User) (t : Task)
    (hu : s.users.find? (fun v => v.id == uid) = some u)
    (ht : s.tasks.find? (fun x => x.id == tid && x.user_id == uid) = some t)
    (hdone : t.done = false) :
    (update_task uid tid donePatch now today s).users.find? (fun v => v.id == uid)
      = some { u with
               points := u.points + 10 + priorityBonus t.priority,
               streak := if parseDate u.last_complete_date = some (today - 1) then u.streak + 1
                         else if parseDate u.last_complete_date = some today then u.streak
                         else 1,
               last_complete_date := DateText.iso today }
    ∧ priorityBonus (some "High") = 5 ∧ priorityBonus (some "Medium") = 2
    ∧ priorityBonus (some "Low") = 0 := by
  refine ⟨?_, by decide, by decide, by decide⟩
  have hstep : update_task uid tid donePatch now today s
      = applyWrite today (applyWrite today s (DBWrite.taskPatchW uid tid donePatch now))
          (DBWrite.gamifyW uid tid) := rfl
  have happ : applyWrite today s (DBWrite.taskPatchW uid tid donePatch now)
      = { s with tasks := s.tasks.map (updTask uid tid donePatch now) } := rfl
  have hprio : prioOf { s with tasks := s.tasks.map (updTask uid tid donePatch now) } tid uid
      = t.priority := by
    unfold prioOf
    show (match (s.tasks.map (updTask uid tid donePatch now)).find?
            (fun x => x.id == tid && x.user_id == uid) with
          | some x => x.priority
          | Option.none => some "Medium") = t.priority
    rw [find_updTask, ht]
    show (applyPatch donePatch now t).priority = t.priority
    exact applyPatch_priority _ _ _ rfl
  have happ2 : applyWrite today { s with tasks := s.tasks.map (updTask uid tid donePatch now) }
        (DBWrite.gamifyW uid tid)
      = { users := s.users.map
            (updUser (prioOf { s with tasks := s.tasks.map (updTask uid tid donePatch now) } tid uid)
              today uid),
          tasks := s.tasks.map (updTask uid tid donePatch now) } := rfl
  rw [hstep, happ, happ2, hprio]
  show (s.users.map (updUser t.priority today uid)).find? (fun v => v.id == uid) = _
  rw [find_updUser, hu]
  show some (gamifyUser t.priority today u) = _
  unfold gamifyUser
  rw [pyOr0_succ]

/-- C4, witness at a concrete store: the hypotheses hold and the
gamified user row is returned. -/
theorem completion_gamify_effect_witness :
    w4S.users.find? (fun v => v.id == 1) = some w4U ∧
    w4S.tasks.find? (fun x => x.id == "t1" && x.user_id == 1) = some w4T ∧
    w4T.done = false ∧
    ((update_task 1 "t1" donePatch "N" 50 w4S).users.find? (fun v => v.id == 1)
      = some { w4U with
               points := w4U.points + 10 + priorityBonus w4T.priority,
               streak := if parseDate w4U.last_complete_date = some (50 - 1) then w4U.streak + 1
                         else if parseDate w4U.last_complete_date = some 50 then w4U.streak
                         else 1,
               last_complete_date := DateText.iso 50 }
      ∧ priorityBonus (some "High") = 5 ∧ priorityBonus (some "Medium") = 2
      ∧ priorityBonus (some "Low") = 0) :=
  ⟨by decide, by decide, by decide,
    completion_gamify_effect w4S 1 "t1" "N" 50 w4U w4T (by decide) (by decide) (by decide)⟩

/-- C5: over a nullable calendar due date, the suggestion is High
exactly when the date exists and is not after today, Medium exactly
when it lies one to three days ahead, and Low exactly when it is null
or more than three days ahead. -/
theorem suggest_priority_spec (d : Option Int) (today : Int) :
    (suggest_priority_by_due (dueOfOpt d) today = "High"
      ↔ ∃ x, d = some x ∧ x ≤ today) ∧
    (suggest_priority_by_due (dueOfOpt d) today = "Medium"
      ↔ ∃ x, d = some x ∧ 1 ≤ x - today ∧ x - today ≤ 3) ∧
    (suggest_priority_by_due (dueOfOpt d) today = "Low"
      ↔ d = Option.none ∨ ∃ x, d = some x ∧ 3 < x - today) := by
  cases d with
  | none =>
    have hlow : suggest_priority_by_due (dueOfOpt Option.none) today = "Low" := rfl
    refine ⟨?_, ?_, ?_⟩
    · refine iff_of_false ?_ (by rintro ⟨x, hx, -⟩; exact Option.noConfusion hx)
      rw [hlow]
      decide
    · refine iff_of_false ?_ (by rintro ⟨x, hx, -⟩; exact Option.noConfusion hx)
      rw [hlow]
      decide
    · exact iff_of_true rfl (Or.inl rfl)
  | some x =>
    have hs : suggest_priority_by_due (dueOfOpt (some x)) today
        = if x - today ≤ 0 then "High" else if x - today ≤ 3 then "Medium" else "Low" := rfl
    rw [hs]
    by_cases h1 : x - today ≤ 0
    · rw [if_pos h1]
      refine ⟨iff_of_true rfl ⟨x, rfl, by omega⟩, ?_, ?_⟩
      · refine iff_of_false (by decide) ?_
        rintro ⟨y, hy, h2, h3⟩
        obtain rfl : x = y := Option.some.inj hy
        omega
      · refine iff_of_false (by decide) ?_
        rintro (h | ⟨y, hy, h3⟩)
        · exact Option.noConfusion h
        · obtain rfl : x = y := Option.some.inj hy
          omega
    · by_cases h2 : x - today ≤ 3
      · rw [if_neg h1, if_pos h2]
        refine ⟨?_, iff_of_true rfl ⟨x, rfl, by omega, by omega⟩, ?_⟩
        · refine iff_of_false (by decide) ?_
          rintro ⟨y, hy, h3⟩
          obtain rfl : x = y := Option.some.inj hy
          omega
        · refine iff_of_false (by decide) ?_
          rintro (h | ⟨y, hy, h3⟩)
          · exact Option.noConfusion h
          · obtain rfl : x = y := Option.some.inj hy
            omega
      · rw [if_neg h1, if_neg h2]
        refine ⟨?_, ?_, iff_of_true rfl (Or.inr ⟨x, rfl, by omega⟩)⟩
        · refine iff_of_false (by decide) ?_
          rintro ⟨y, hy, h3⟩
          obtain rfl : x = y := Option.some.inj hy
          omega
        · refine iff_of_false (by decide) ?_
          rintro ⟨y, hy, h3, h4⟩
          obtain rfl : x = y := Option.some.inj hy
          omega

/-- C6: the claim says the completion write and the gamification write
are atomic with respect to each other.  The embedded commit structure
of update_task shows two separate transactions: after only the first
one is applied, the task is durably completed with its timestamp while
the user still has the old 5 points; the second commit alone carries
the gamification write (a full run reaches 15 points).  A failure
between the two commits therefore persists a completion without its
points. -/
theorem completion_commits_not_atomic :
    c6Commits.length = 2
      ∧ taskDoneB c6Half "t1" = true
      ∧ taskCompletedAt c6Half "t1" = some "N1"
      ∧ userPoints c6Half 1 = 5
      ∧ userPoints (update_task 1 "t1" donePatch "N1" 100 c6S0) 1 = 15 := by decide

/-- C7, counterexample: the claim says a successful login returns an
identity record containing exactly id, email, name and provider.  At a
concrete store the embedded login_local succeeds and hands back the
complete stored user row, which still carries the password hash and
the gamification counters. -/
theorem login_returns_full_user_row :
    login_local cVerify c7Users "  A@X.com  " "pw" = (some c7U, Option.none)
      ∧ c7U.password_hash = some "h1" ∧ c7U.points = 42 ∧ c7U.streak = 3 := by decide

/-- C7, amended: the three failures happen in the stated order on the
normalized email, but success returns the full matched user row; the
caller then builds the session identity with exactly id, email, name
and provider from it. -/
theorem login_error_order_and_success (verify : String → Option String → Bool)
    (users : List User) (email password : String) :
    (get_user_by_email users email = Option.none →
      login_local verify users email password = (Option.none, some LoginError.notFound)) ∧
    (∀ u, get_user_by_email users email = some u → u.provider ≠ "local" →
      login_local verify users email password = (Option.none, some LoginError.providerMismatch)) ∧
    (∀ u, get_user_by_email users email = some u → u.provider = "local" →
      verify password u.password_hash = false →
      login_local verify users email password = (Option.none, some LoginError.invalidCredentials)) ∧
    (∀ u, get_user_by_email users email = some u → u.provider = "local" →
      verify password u.password_hash = true →
      login_local verify users email password = (some u, Option.none)
        ∧ sessionOfUser u
          = { id := u.id, email := u.email, name := u.name, provider := u.provider }) := by
  refine ⟨?_, ?_, ?_, ?_⟩
  · intro h
    unfold login_local
    rw [h]
  · intro u hu hp
    unfold login_local
    rw [hu]
    simp [hp]
  · intro u hu hp hv
    unfold login_local
    rw [hu]
    simp [hp, hv]
  · intro u hu hp hv
    unfold login_local
    rw [hu]
    simp [hp, hv, sessionOfUser]

/-- C7, witness for the amended statement on the success path. -/
theorem login_error_order_and_success_witness :
    get_user_by_email c7Users "  A@X.com  " = some c7U
      ∧ c7U.provider = "local"
      ∧ cVerify "pw" c7U.password_hash = true
      ∧ (login_local cVerify c7Users "  A@X.com  " "pw" = (some c7U, Option.none)
        ∧ sessionOfUser c7U
          = { id := c7U.id, email := c7U.email, name := c7U.name, provider := c7U.provider }) :=
  ⟨by decide, by decide, by decide,
    (login_error_order_and_success cVerify c7Users "  A@X.com  " "pw").2.2.2 c7U
      (by decide) (by decide) (by decide)⟩

/-- C8: the category histogram counts every task, completed or not,
under its category with NULL defaulted to Other, and on the scenario
tasks with categories NULL and Work it yields exactly one Other and
one Work. -/
theorem category_histogram_counts :
    (∀ (tasks : List Task) (c : String),
        getCount (categoriesOf tasks) c = (tasks.map catOf).count c) ∧
    categoriesOf [demoNullCat, demoWorkCat] = [("Other", 1), ("Work", 1)] := by
  constructor
  · intro tasks c
    cases tasks with
    | nil => rfl
    | cons a l =>
      have h : categoriesOf (a :: l) = value_counts ((a :: l).map catOf) := rfl
      rw [h]
      unfold value_counts
      rw [getCount_foldl]
      simp [getCount]
  · decide

/-- C9, counterexample: the claim says the Low hint needs the phrase
low priority or the standalone word low.  The text Follow up contains
neither (its words are follow and up), yet the embedded parser returns
a Low hint, because the source tests the substring low, which occurs
inside follow. -/
theorem voice_low_substring_cex :
    (parse_voice_text_for_task "Follow up" 0).2.2 = some "Low"
      ∧ specVoiceLowCondition "Follow up" = false := by decide

/-- C9, amended: the priority hint is High exactly when the lowercased
stripped text contains high priority or urgent; Low exactly when it
does not match the High keywords and contains the substring low (the
phrase low priority is subsumed by that substring, and the word need
not stand alone); and unset otherwise. -/
theorem voice_priority_keywords (text : String) (today : Int) :
    ((parse_voice_text_for_task text today).2.2 = some "High"
      ↔ (strHas (lowerStr (stripStr text)) "high priority"
          || strHas (lowerStr (stripStr text)) "urgent") = true) ∧
    ((parse_voice_text_for_task text today).2.2 = some "Low"
      ↔ (strHas (lowerStr (stripStr text)) "high priority"
          || strHas (lowerStr (stripStr text)) "urgent") = false
        ∧ (strHas (lowerStr (stripStr text)) "low priority"
          || strHas (lowerStr (stripStr text)) "low") = true) ∧
    ((parse_voice_text_for_task text today).2.2 = Option.none
      ↔ (strHas (lowerStr (stripStr text)) "high priority"
          || strHas (lowerStr (stripStr text)) "urgent") = false
        ∧ (strHas (lowerStr (stripStr text)) "low priority"
          || strHas (lowerStr (stripStr text)) "low") = false) := by
  rw [parse_voice_priority]
  unfold voicePriority
  cases hh : (strHas (lowerStr (stripStr text)) "high priority"
      || strHas (lowerStr (stripStr text)) "urgent") with
  | true => simp [hh]
  | false =>
    cases hl : (strHas (lowerStr (stripStr text)) "low priority"
        || strHas (lowerStr (stripStr text)) "low") with
    | true => simp [hh, hl]
    | false => simp [hh, hl]

/-- C10: the suggestion function is total over every shape of due
input, always returning one of the three priority strings, and the
null, unparseable-string and alien-type inputs all map to Low; the
parse failure that Python handles with try/except is modelled by the
date extraction returning nothing. -/
theorem suggest_priority_total :
    (∀ (inp : DueInput) (today : Int),
        suggest_priority_by_due inp today = "High"
        ∨ suggest_priority_by_due inp today = "Medium"
        ∨ suggest_priority_by_due inp today = "Low") ∧
    (∀ today : Int, suggest_priority_by_due DueInput.noneV today = "Low") ∧
    (∀ today : Int, suggest_priority_by_due DueInput.badStrV today = "Low") ∧
    (∀ today : Int, suggest_priority_by_due DueInput.otherV today = "Low") := by
  refine ⟨?_, fun _ => rfl, fun _ => rfl, fun _ => rfl⟩
  intro inp today
  cases inp with
  | noneV => exact Or.inr (Or.inr rfl)
  | badStrV => exact Or.inr (Or.inr rfl)
  | otherV => exact Or.inr (Or.inr rfl)
  | dateV d =>
    by_cases h1 : d - today ≤ 0
    · exact Or.inl (by simp [suggest_priority_by_due, dueDateOf, h1])
    · by_cases h2 : d - today ≤ 3
      · exact Or.inr (Or.inl (by simp [suggest_priority_by_due, dueDateOf, h1, h2]))
      · exact Or.inr (Or.inr (by simp [suggest_priority_by_due, dueDateOf, h1, h2]))
  | datetimeV d =>
    by_cases h1 : d - today ≤ 0
    · exact Or.inl (by simp [suggest_priority_by_due, dueDateOf, h1])
    · by_cases h2 : d - today ≤ 3
      · exact Or.inr (Or.inl (by simp [suggest_priority_by_due, dueDateOf, h1, h2]))
      · exact Or.inr (Or.inr (by simp [suggest_priority_by_due, dueDateOf, h1, h2]))
  | isoStrV d =>
    by_cases h1 : d - today ≤ 0
    · exact Or.inl (by simp [suggest_priority_by_due, dueDateOf, h1])
    · by_cases h2 : d - today ≤ 3
      · exact Or.inr (Or.inl (by simp [suggest_priority_by_due, dueDateOf, h1, h2]))
      · exact Or.inr (Or.inr (by simp [suggest_priority_by_due, dueDateOf, h1, h2]))

end TodoApp
